import Mathlib

/-!
Shallow embedding of the context-engine core of the task-master repository
(`src/context_engine/context_engine.py` and the context-bundle reader of
`src/task_storage/task_storage.py`), together with theorems settling the
frozen claims about its specification.

Conventions of the embedding:
* Python numbers (ints and floats) are modelled as `Int` / `Rat`; all the
  arithmetic the claims exercise is exact, so no floating-point rounding is
  modelled.
* Python `None` becomes `Option.none`; dictionaries with a fixed key set
  become structures; dictionaries whose key set depends on a branch
  (for example `{'has_interactions': False}` versus the fully populated
  analysis dictionary) become inductive types with one constructor per
  shape, and `.get(key, default)` access becomes a total accessor function.
* Python truthiness is made explicit where the source relies on it
  (`None`, `0`, `[]` and `""` are falsy).
* A Python function that can raise becomes a function into `Except String`;
  a total function stays a plain function.
* Presentation-only fields that no claim touches (timestamps, request and
  response payloads, session linkage) are omitted from the record types.
-/

namespace TaskMaster

/-- Task status enumeration (`TaskStatus` in `task_storage.py`). -/
inductive TaskStatus where
  | pending
  | inProgress
  | done
  | deferred
  | blocked
  | cancelled
deriving DecidableEq, Repr

/-- The wire value of a status (`TaskStatus(...).value` in Python). -/
def TaskStatus.value : TaskStatus → String
  | .pending => "pending"
  | .inProgress => "in-progress"
  | .done => "done"
  | .deferred => "deferred"
  | .blocked => "blocked"
  | .cancelled => "cancelled"

/-- Task priority enumeration (`TaskPriority` in `task_storage.py`). -/
inductive TaskPriority where
  | low
  | medium
  | high
  | critical
deriving DecidableEq, Repr

/-- The wire value of a priority. -/
def TaskPriority.value : TaskPriority → String
  | .low => "low"
  | .medium => "medium"
  | .high => "high"
  | .critical => "critical"

/-- The fields of `AtomicTask` that the context engine reads.  The
dataclass's remaining fields (requirements, acceptance criteria,
timestamps, hour estimates, tags, metadata) are presentation-only for the
claims and omitted. -/
structure AtomicTask where
  id : String
  title : String
  description : Option String
  status : TaskStatus
  priority : TaskPriority
  complexity_score : Option Int
  affected_files : List String
deriving DecidableEq, Repr

/-- One entry of the `dependency_info` list built by
`_build_dependency_context`: the parent task's fields rendered to wire
values. -/
structure DepInfo where
  id : String
  title : String
  status : String
  priority : String
  complexity_score : Option Int
deriving DecidableEq, Repr

/-- The dependency-context dictionary.  `noDeps` is the
`{'has_dependencies': False, 'dependencies': []}` shape returned for a
task without dependencies; `deps` is the fully populated shape. -/
inductive DependencyContext where
  | noDeps
  | deps (total completed pending blocked : Nat)
      (dependencies : List DepInfo) (is_ready : Bool)
deriving DecidableEq, Repr

/-- `dependency_context.get('has_dependencies', False)`. -/
def DependencyContext.hasDependencies : DependencyContext → Bool
  | .noDeps => false
  | .deps _ _ _ _ _ _ => true

/-- `dependency_context.get('total_dependencies', 0)`. -/
def DependencyContext.totalDependencies : DependencyContext → Nat
  | .noDeps => 0
  | .deps t _ _ _ _ _ => t

/-- `dependency_context['completed_dependencies']` (populated shape only;
`0` stands for the absent key of the no-dependency shape). -/
def DependencyContext.completedDependencies : DependencyContext → Nat
  | .noDeps => 0
  | .deps _ c _ _ _ _ => c

/-- `dependency_context['pending_dependencies']`. -/
def DependencyContext.pendingDependencies : DependencyContext → Nat
  | .noDeps => 0
  | .deps _ _ p _ _ _ => p

/-- `dependency_context['blocked_dependencies']`. -/
def DependencyContext.blockedDependencies : DependencyContext → Nat
  | .noDeps => 0
  | .deps _ _ _ b _ _ => b

/-- `dependency_context['is_ready']` (populated shape only; the key is
absent in the no-dependency shape and is only ever read behind a
`has_dependencies` check in the source). -/
def DependencyContext.isReady : DependencyContext → Bool
  | .noDeps => false
  | .deps _ _ _ _ _ r => r

/-- `_build_dependency_context` of `context_engine.py`.  `dependencies` is
the list of parent ids fetched from storage and `lookup` models
`task_storage.get_task`: a missing parent (`lookup` returning `none`) is
skipped silently. -/
def buildDependencyContext (dependencies : List String)
    (lookup : String → Option AtomicTask) : DependencyContext :=
  if dependencies = [] then .noDeps
  else
    let dependency_info : List DepInfo :=
      dependencies.filterMap fun depId =>
        (lookup depId).map fun t =>
          { id := t.id, title := t.title, status := t.status.value,
            priority := t.priority.value,
            complexity_score := t.complexity_score }
    let completed_deps := dependency_info.filter fun d => d.status = "done"
    let pending_deps := dependency_info.filter fun d =>
      d.status = "pending" ∨ d.status = "in-progress"
    let blocked_deps := dependency_info.filter fun d =>
      d.status = "blocked" ∨ d.status = "deferred"
    .deps dependency_info.length completed_deps.length pending_deps.length
      blocked_deps.length dependency_info
      (pending_deps.length = 0 ∧ blocked_deps.length = 0 : Bool)

/-- One validation record as it appears in the `validation_history`
dictionaries (`validation_results` rows of `get_task_context`). -/
structure ValidationRec where
  validation_type : String
  validator_name : String
  status : String
  score : Option Rat
deriving DecidableEq, Repr

/-- The `recent` half of `_calculate_validation_trend`:
`validations[:len(validations) // 2]` of the newest-first list. -/
def recentHalf (validations : List ValidationRec) : List ValidationRec :=
  validations.take (validations.length / 2)

/-- The `older` half of `_calculate_validation_trend`:
`validations[len(validations) // 2:]`. -/
def olderHalf (validations : List ValidationRec) : List ValidationRec :=
  validations.drop (validations.length / 2)

/-- The pass rate of one half:
`sum(1 for v in half if v.get('status') == 'passed') / len(half)`. -/
def halfPassRate (half : List ValidationRec) : Rat :=
  ((half.filter fun v => v.status = "passed").length : Rat) /
    (half.length : Rat)

/-- `_calculate_validation_trend`: split the newest-first list at
`len // 2`, compare pass rates of the two halves. -/
def calculateValidationTrend (validations : List ValidationRec) : String :=
  if validations.length < 3 then "insufficient_data"
  else
    let recent_pass_rate := halfPassRate (recentHalf validations)
    let older_pass_rate := halfPassRate (olderHalf validations)
    if recent_pass_rate > older_pass_rate + 1/10 then "improving"
    else if recent_pass_rate < older_pass_rate - 1/10 then "declining"
    else "stable"

/-- One AI-interaction record as it appears in the `ai_interactions`
dictionaries of `get_task_context`.  `success` is `none` when the record
lacks the field (a row with SQL `NULL`); the dataclass default is `True`
but the analysis code reads it with `interaction.get('success', True)`,
so absence is observable.  Request and response payloads and timestamps
are presentation-only and omitted. -/
structure Interaction where
  interaction_type : String
  agent_name : String
  success : Option Bool
  execution_time_ms : Option Int
  error_message : Option String
deriving DecidableEq, Repr

/-- Python truthiness of an optional list value: `None` and `[]` are
falsy. -/
def listTruthy {α : Type} : Option (List α) → Bool
  | none => false
  | some [] => false
  | some (_ :: _) => true

/-- Python truthiness of an optional integer: `None` and `0` are falsy. -/
def intTruthy : Option Int → Bool
  | none => false
  | some v => v ≠ 0

/-- Python truthiness of an optional rational: `None` and `0` are
falsy. -/
def ratTruthy : Option Rat → Bool
  | none => false
  | some v => v ≠ 0

/-- The dictionary returned by `_analyze_interactions`: either the
`{'has_interactions': False}` shape or the fully populated shape.  The
per-type tally (`interaction_types`) is read by no downstream code and no
claim, and is omitted. -/
inductive InteractionAnalysis where
  | noData
  | data (total_interactions : Nat) (error_count : Nat) (error_rate : Rat)
      (avg_execution_time_ms : Option Rat) (success_rate : Rat)
deriving DecidableEq, Repr

/-- `interactions.get('has_interactions')` truthiness. -/
def InteractionAnalysis.hasInteractions : InteractionAnalysis → Bool
  | .noData => false
  | .data _ _ _ _ _ => true

/-- `interactions['error_count']` (populated shape only; `0` stands for
the absent key of the no-data shape). -/
def InteractionAnalysis.errorCountD : InteractionAnalysis → Nat
  | .noData => 0
  | .data _ e _ _ _ => e

/-- `interactions.get('error_rate', 0)`. -/
def InteractionAnalysis.errorRateD : InteractionAnalysis → Rat
  | .noData => 0
  | .data _ _ r _ _ => r

/-- `interactions.get('success_rate', 0)`. -/
def InteractionAnalysis.successRateD : InteractionAnalysis → Rat
  | .noData => 0
  | .data _ _ _ _ s => s

/-- `interactions.get('avg_execution_time_ms', 0)`, kept as an option:
`none` models a stored Python `None` (the key present with value `None`),
while the `noData` shape has no key at all and yields the default `0`. -/
def InteractionAnalysis.avgExecutionTimeD : InteractionAnalysis → Option Rat
  | .noData => some 0
  | .data _ _ _ a _ => a

/-- `_analyze_interactions` of `context_engine.py`.  The argument is
`PromptContext.recent_interactions`; `if not interactions` covers both
`None` and the empty list. -/
def analyzeInteractions (interactions : Option (List Interaction)) :
    InteractionAnalysis :=
  if ¬ listTruthy interactions then .noData
  else
    let is := interactions.getD []
    let error_count := is.countP fun i => ¬ (i.success.getD true)
    let exec_entries := is.filter fun i => intTruthy i.execution_time_ms
    let total_execution_time : Int :=
      (exec_entries.map fun i => i.execution_time_ms.getD 0).sum
    let avg_execution_time : Option Rat :=
      if exec_entries.length > 0 then
        some ((total_execution_time : Rat) / (exec_entries.length : Rat))
      else none
    let error_rate : Rat := (error_count : Rat) / (is.length : Rat)
    .data is.length error_count error_rate avg_execution_time (1 - error_rate)

/-- The dictionary returned by `_analyze_validations`: either
`{'has_validations': False}` or the populated shape.  Status and type
tallies are not read by any claim and are represented by the counts the
downstream code actually reads. -/
inductive ValidationAnalysis where
  | noData
  | data (total_validations : Nat) (avg_score : Option Rat)
      (pass_rate : Rat) (recent_trend : String)
deriving DecidableEq, Repr

/-- `validations.get('has_validations')` truthiness. -/
def ValidationAnalysis.hasValidations : ValidationAnalysis → Bool
  | .noData => false
  | .data _ _ _ _ => true

/-- `validations.get('pass_rate', 1)`. -/
def ValidationAnalysis.passRateD : ValidationAnalysis → Rat
  | .noData => 1
  | .data _ _ p _ => p

/-- `validations.get('recent_trend')` (`None` for the no-data shape). -/
def ValidationAnalysis.recentTrend? : ValidationAnalysis → Option String
  | .noData => none
  | .data _ _ _ t => t

/-- `_analyze_validations` of `context_engine.py`.  A score is included in
the average when it `is not None` (a zero score still counts). -/
def analyzeValidations (validations : Option (List ValidationRec)) :
    ValidationAnalysis :=
  if ¬ listTruthy validations then .noData
  else
    let vs := validations.getD []
    let scored := vs.filterMap fun v => v.score
    let avg_score : Option Rat :=
      if scored.length > 0 then some (scored.sum / (scored.length : Rat))
      else none
    let pass_rate : Rat :=
      ((vs.countP fun v => v.status = "passed" : Nat) : Rat) /
        (vs.length : Rat)
    .data vs.length avg_score pass_rate (calculateValidationTrend vs)

/-- One row fetched by `_get_performance_context`'s query (latest 20,
newest first).  `metric_value` is `none` for an SQL `NULL`; the timestamp
is presentation-only and omitted. -/
structure MetricRow where
  metric_type : String
  metric_name : String
  metric_value : Option Rat
  unit : Option String
deriving DecidableEq, Repr

/-- One entry of the `metrics` list `_get_performance_context` builds from
a row: `'value': float(row['metric_value']) if row['metric_value'] else
None` maps both `NULL` and `0` to `None`. -/
structure Metric where
  mtype : String
  name : String
  value : Option Rat
  unit : Option String
deriving DecidableEq, Repr

/-- The row-to-metric mapping of `_get_performance_context`. -/
def metricOfRow (row : MetricRow) : Metric :=
  { mtype := row.metric_type, name := row.metric_name,
    value := if ratTruthy row.metric_value then row.metric_value else none,
    unit := row.unit }

/-- The dictionary returned by `_get_performance_context`: either
`{'has_metrics': False}` or the populated shape.  The nested
`performance_summary` duplicates fields already present and is omitted. -/
inductive PerformanceContext where
  | noMetrics
  | metrics (total_metrics : Nat) (avg_execution_time : Option Rat)
      (recent_metrics : List Metric)
deriving DecidableEq, Repr

/-- `performance_context.get('has_metrics')` truthiness. -/
def PerformanceContext.hasMetrics : PerformanceContext → Bool
  | .noMetrics => false
  | .metrics _ _ _ => true

/-- `performance_context.get('recent_metrics', [])`. -/
def PerformanceContext.recentMetrics : PerformanceContext → List Metric
  | .noMetrics => []
  | .metrics _ _ m => m

/-- `performance_context.get('avg_execution_time')`. -/
def PerformanceContext.avgExecutionTime? : PerformanceContext → Option Rat
  | .noMetrics => none
  | .metrics _ a _ => a

/-- `_get_performance_context` of `context_engine.py`, from the fetched
rows onward (the SQL fetch of the latest 20 rows, newest first, is the
storage collaborator).  The average divides the sum of the truthy values
by the number of all `execution_time`-typed metrics. -/
def getPerformanceContext (rows : List MetricRow) : PerformanceContext :=
  if rows = [] then .noMetrics
  else
    let metrics := rows.map metricOfRow
    let execution_times := metrics.filter fun m => m.mtype = "execution_time"
    let avg_execution_time : Option Rat :=
      if execution_times ≠ [] then
        some (((execution_times.filterMap fun m => m.value).sum) /
          (execution_times.length : Rat))
      else none
    .metrics metrics.length avg_execution_time (metrics.take 10)

/-- The dictionary returned by `_analyze_performance`: either
`{'has_performance_data': False}` or the populated shape. -/
inductive PerformanceAnalysis where
  | noData
  | data (total_metrics : Nat) (avg_execution_time : Option Rat)
      (execution_time_trend : String)
deriving DecidableEq, Repr

/-- `performance.get('has_performance_data')` truthiness. -/
def PerformanceAnalysis.hasPerformanceData : PerformanceAnalysis → Bool
  | .noData => false
  | .data _ _ _ => true

/-- `performance.get('execution_time_trend')` (`None` for the no-data
shape). -/
def PerformanceAnalysis.executionTimeTrend? : PerformanceAnalysis → Option String
  | .noData => none
  | .data _ _ t => t

/-- `_calculate_performance_trend` of `context_engine.py`. -/
def calculatePerformanceTrend (execution_times : List Rat) : String :=
  if execution_times.length < 3 then "insufficient_data"
  else
    let n := execution_times.length
    let recent_avg : Rat := (execution_times.take (n / 2)).sum / ((n / 2 : Nat) : Rat)
    let older_avg : Rat := (execution_times.drop (n / 2)).sum / ((n - n / 2 : Nat) : Rat)
    if recent_avg < older_avg * (9/10) then "improving"
    else if recent_avg > older_avg * (11/10) then "declining"
    else "stable"

/-- `_analyze_performance` of `context_engine.py`.  The trend is computed
over the truthy `execution_time` values of the up-to-10 `recent_metrics`,
while the average is the one carried in the performance context. -/
def analyzePerformance (performance_context : PerformanceContext) :
    PerformanceAnalysis :=
  if ¬ performance_context.hasMetrics then .noData
  else
    let metrics := performance_context.recentMetrics
    let execution_times := metrics.filterMap fun m =>
      if m.mtype = "execution_time" ∧ ratTruthy m.value then m.value else none
    .data metrics.length performance_context.avgExecutionTime?
      (calculatePerformanceTrend execution_times)

/-- The `task_summary` dictionary assembled by `generate_prompt_context`:
the task's fields with status and priority rendered to their wire tokens.
Timestamps, tags, assignment and hour fields are presentation-only and
omitted. -/
structure TaskSummary where
  id : String
  title : String
  description : Option String
  status : String
  priority : String
  complexity_score : Option Int
  affected_files : List String
deriving DecidableEq, Repr

/-- The `task_summary` built from an `AtomicTask` (statuses held as enums
take the `.value` branch of the duck-typed accessor). -/
def taskSummaryOf (t : AtomicTask) : TaskSummary :=
  { id := t.id, title := t.title, description := t.description,
    status := t.status.value, priority := t.priority.value,
    complexity_score := t.complexity_score,
    affected_files := t.affected_files }

/-- The `PromptContext` dataclass.  The requirements, codebase, workflow
and metadata bundle entries are opaque JSON payloads; only their presence
and identity matter to the claims, so they are carried as strings. -/
structure PromptCtx where
  task_id : String
  task_summary : TaskSummary
  requirements_context : Option String
  codebase_context : Option String
  recent_interactions : Option (List Interaction)
  validation_history : Option (List ValidationRec)
  dependency_context : DependencyContext
  performance_context : PerformanceContext
  workflow_state : Option String
  metadata : Option String
deriving DecidableEq, Repr

/-- The `complexity_indicators` dictionary of `_analyze_complexity`. -/
structure ComplexityIndicators where
  complexity_score : Option Int
  affected_files_count : Nat
  has_dependencies : Bool
  dependency_count : Nat
  requirements_complexity : String
  overall_complexity : String
deriving DecidableEq, Repr

/-- The complexity-score contribution of `_analyze_complexity`:
`+2 if truthy and > 7, elif truthy and > 5 then +1`. -/
def scoreFactor (complexity_score : Option Int) : Nat :=
  if intTruthy complexity_score ∧ complexity_score.getD 0 > 7 then 2
  else if intTruthy complexity_score ∧ complexity_score.getD 0 > 5 then 1
  else 0

/-- The affected-files contribution: `+2 if count > 5, elif > 2 then +1`. -/
def filesFactor (affected_files_count : Nat) : Nat :=
  if affected_files_count > 5 then 2
  else if affected_files_count > 2 then 1
  else 0

/-- The dependency contribution: `+1 if dependency_count > 3`. -/
def depFactor (dependency_count : Nat) : Nat :=
  if dependency_count > 3 then 1 else 0

/-- The `complexity_factors` accumulator of `_analyze_complexity`: the
three contributions are added to one counter in sequence. -/
def complexityFactors (complexity_score : Option Int)
    (affected_files_count dependency_count : Nat) : Nat :=
  scoreFactor complexity_score + filesFactor affected_files_count +
    depFactor dependency_count

/-- The bucket thresholds of `_analyze_complexity`. -/
def complexityBucket (factors : Nat) : String :=
  if factors ≥ 4 then "very_high"
  else if factors ≥ 3 then "high"
  else if factors ≥ 2 then "medium"
  else "low"

/-- The `overall_complexity` token computed by `_analyze_complexity`. -/
def overallComplexity (complexity_score : Option Int)
    (affected_files_count dependency_count : Nat) : String :=
  complexityBucket
    (complexityFactors complexity_score affected_files_count dependency_count)

/-- Python truthiness of an optional opaque payload (a JSON dictionary,
carried here as its text): `None` and an empty payload are falsy. -/
def optTruthy : Option String → Bool
  | none => false
  | some s => s ≠ ""

/-- `_analyze_complexity` of `context_engine.py`. -/
def analyzeComplexity (context : PromptCtx) : ComplexityIndicators :=
  let complexity_score := context.task_summary.complexity_score
  let affected_files_count := context.task_summary.affected_files.length
  let dependency_count := context.dependency_context.totalDependencies
  { complexity_score := complexity_score,
    affected_files_count := affected_files_count,
    has_dependencies := context.dependency_context.hasDependencies,
    dependency_count := dependency_count,
    requirements_complexity :=
      if optTruthy context.requirements_context then "high" else "low",
    overall_complexity :=
      overallComplexity complexity_score affected_files_count
        dependency_count }

/-- "Consider breaking this task into smaller subtasks due to very high
complexity" -/
def recVeryHighComplexity : String :=
  "Consider breaking this task into smaller subtasks due to very high complexity"

/-- "Task has high complexity - ensure thorough testing and validation" -/
def recHighComplexity : String :=
  "Task has high complexity - ensure thorough testing and validation"

/-- "High number of dependencies - verify all prerequisites are
completed" -/
def recManyDependencies : String :=
  "High number of dependencies - verify all prerequisites are completed"

/-- "High error rate in AI interactions - review prompts and context
quality" -/
def recHighErrorRate : String :=
  "High error rate in AI interactions - review prompts and context quality"

/-- "Long AI interaction times - consider optimizing prompts or context
size" -/
def recLongInteractionTimes : String :=
  "Long AI interaction times - consider optimizing prompts or context size"

/-- "Low validation pass rate - review code quality and testing
strategy" -/
def recLowPassRate : String :=
  "Low validation pass rate - review code quality and testing strategy"

/-- "Validation quality is declining - investigate recent changes" -/
def recValidationDeclining : String :=
  "Validation quality is declining - investigate recent changes"

/-- "Performance is declining - consider optimization opportunities" -/
def recPerformanceDeclining : String :=
  "Performance is declining - consider optimization opportunities"

/-- "No AI interactions recorded - ensure proper logging is enabled" -/
def recNoInteractions : String :=
  "No AI interactions recorded - ensure proper logging is enabled"

/-- "No validation results - implement automated validation checks" -/
def recNoValidations : String :=
  "No validation results - implement automated validation checks"

/-- The guard `interactions.get('avg_execution_time_ms', 0) > 5000` of
`_generate_recommendations`.  When the populated analysis dictionary
carries `None` for the average (interactions exist but none reported a
truthy execution time), Python evaluates `None > 5000` and raises
`TypeError`; that failure is modelled as `Except.error`. -/
def avgTimeGuard (interactions : InteractionAnalysis) : Except String Bool :=
  match interactions.avgExecutionTimeD with
  | none =>
      .error ("TypeError: '>' not supported between instances of " ++
        "'NoneType' and 'int'")
  | some v => .ok (v > 5000)

/-- `_generate_recommendations` of `context_engine.py`: conditional
appends to one list, in source order; the complexity pair is an
`if`/`elif`. -/
def generateRecommendations (complexity : ComplexityIndicators)
    (interactions : InteractionAnalysis)
    (validations : ValidationAnalysis)
    (performance : PerformanceAnalysis) : Except String (List String) :=
  match avgTimeGuard interactions with
  | .error e => .error e
  | .ok slow =>
    let r1 :=
      if complexity.overall_complexity = "very_high" then
        [recVeryHighComplexity]
      else if complexity.overall_complexity = "high" then
        [recHighComplexity]
      else []
    let r2 := if complexity.dependency_count > 3 then [recManyDependencies]
      else []
    let r3 := if interactions.errorRateD > 3/10 then [recHighErrorRate]
      else []
    let r4 := if slow then [recLongInteractionTimes] else []
    let r5 := if validations.passRateD < 7/10 then [recLowPassRate] else []
    let r6 := if validations.recentTrend? = some "declining" then
        [recValidationDeclining]
      else []
    let r7 := if performance.executionTimeTrend? = some "declining" then
        [recPerformanceDeclining]
      else []
    let r8 := if ¬ interactions.hasInteractions then [recNoInteractions]
      else []
    let r9 := if ¬ validations.hasValidations then [recNoValidations] else []
    .ok (r1 ++ r2 ++ r3 ++ r4 ++ r5 ++ r6 ++ r7 ++ r8 ++ r9)

/-- The `ContextAnalytics` dataclass. -/
structure ContextAnalytics where
  task_id : String
  complexity_indicators : ComplexityIndicators
  interaction_patterns : InteractionAnalysis
  validation_trends : ValidationAnalysis
  performance_metrics : PerformanceAnalysis
  recommendations : List String
deriving DecidableEq, Repr

/-- `analyze_context_patterns` of `context_engine.py`, from an already
generated `PromptContext` onward (the method itself regenerates the
context with the default history caps; the storage fetches live in the
collaborator).  The only internal failure point is
`_generate_recommendations`; a failure re-raises to the caller. -/
def analyzeContextPatterns (context : PromptCtx) :
    Except String ContextAnalytics :=
  let complexity_indicators := analyzeComplexity context
  let interaction_patterns := analyzeInteractions context.recent_interactions
  let validation_trends := analyzeValidations context.validation_history
  let performance_metrics := analyzePerformance context.performance_context
  match generateRecommendations complexity_indicators interaction_patterns
      validation_trends performance_metrics with
  | .error e => .error e
  | .ok recommendations =>
      .ok { task_id := context.task_id,
            complexity_indicators := complexity_indicators,
            interaction_patterns := interaction_patterns,
            validation_trends := validation_trends,
            performance_metrics := performance_metrics,
            recommendations := recommendations }

/-- The interaction component score of `get_context_health_score`:
`success_rate * 70 + time_score * 0.3`, with
`time_score = max(0, 100 - avg_time / 100)` when the average is truthy
and `100` otherwise; `50` when there is no interaction data. -/
def interactionHealth (interactions : InteractionAnalysis) : Rat :=
  if interactions.hasInteractions then
    let success_rate := interactions.successRateD
    let avg_time := interactions.avgExecutionTimeD
    let time_score : Rat :=
      if ratTruthy avg_time then max 0 (100 - (avg_time.getD 0) / 100)
      else 100
    success_rate * 70 + time_score * (3/10)
  else 50

/-- The validation component score of `get_context_health_score`:
`clamp(pass_rate * 100 + trend_bonus, 0, 100)` with bonus
improving `+10` / stable `0` / declining `-20` (any other token `0`);
`50` when there is no validation data. -/
def validationHealth (validations : ValidationAnalysis) : Rat :=
  if validations.hasValidations then
    let pass_rate := validations.passRateD
    let trend := (validations.recentTrend?).getD "stable"
    let trend_bonus : Rat :=
      if trend = "improving" then 10
      else if trend = "stable" then 0
      else if trend = "declining" then -20
      else 0
    min 100 (max 0 (pass_rate * 100 + trend_bonus))
  else 50

/-- The performance component score of `get_context_health_score`:
trend lookup improving `90` / stable `70` / declining `40`, default `50`;
`50` when there is no performance data. -/
def performanceHealth (performance : PerformanceAnalysis) : Rat :=
  if performance.hasPerformanceData then
    let trend := (performance.executionTimeTrend?).getD "stable"
    if trend = "improving" then 90
    else if trend = "stable" then 70
    else if trend = "declining" then 40
    else 50
  else 50

/-- The complexity component score of `get_context_health_score`:
bucket lookup low `90` / medium `70` / high `50` / very_high `30`,
default `50`. -/
def complexityHealth (complexity : ComplexityIndicators) : Rat :=
  let bucket := complexity.overall_complexity
  if bucket = "low" then 90
  else if bucket = "medium" then 70
  else if bucket = "high" then 50
  else if bucket = "very_high" then 30
  else 50

/-- The unrounded weighted overall score of `get_context_health_score`:
interaction and validation weighted `0.3`, performance and complexity
weighted `0.2`. -/
def overallScore (analytics : ContextAnalytics) : Rat :=
  interactionHealth analytics.interaction_patterns * (3/10) +
    validationHealth analytics.validation_trends * (3/10) +
    performanceHealth analytics.performance_metrics * (1/5) +
    complexityHealth analytics.complexity_indicators * (1/5)

/-- The status thresholds of `get_context_health_score`, applied to the
unrounded overall score. -/
def healthStatusOf (overall_score : Rat) : String :=
  if overall_score ≥ 80 then "excellent"
  else if overall_score ≥ 60 then "good"
  else if overall_score ≥ 40 then "fair"
  else "poor"

/-- Python's `round` ties-to-even integer rounding. -/
def bankersRound (q : Rat) : Int :=
  let f := ⌊q⌋
  let r := q - (f : Rat)
  if r < 1/2 then f
  else if 1/2 < r then f + 1
  else if f % 2 = 0 then f else f + 1

/-- `round(x, 1)`: rounding to one decimal place, ties to even (the
binary-float representation quirks of Python's `round` are not
modelled). -/
def roundTenths (q : Rat) : Rat := ((bankersRound (q * 10) : Int) : Rat) / 10

/-- The `component_scores` sub-dictionary of a successful health
report. -/
structure ComponentScores where
  interaction_health : Rat
  validation_health : Rat
  performance_health : Rat
  complexity_health : Rat
deriving DecidableEq, Repr

/-- The dictionary returned by `get_context_health_score`.  A successful
report carries component scores and recommendations and no error; the
degraded fallback carries an error and neither of the other two
(`none` models the absent keys).  The `last_updated` timestamp is
presentation-only and omitted. -/
structure HealthReport where
  overall_score : Rat
  health_status : String
  component_scores : Option ComponentScores
  recommendations : Option (List String)
  error : Option String
deriving DecidableEq, Repr

/-- The successful branch of `get_context_health_score`, from the
analytics report onward. -/
def healthReportOf (analytics : ContextAnalytics) : HealthReport :=
  let overall := overallScore analytics
  { overall_score := roundTenths overall,
    health_status := healthStatusOf overall,
    component_scores := some
      { interaction_health := interactionHealth analytics.interaction_patterns,
        validation_health := validationHealth analytics.validation_trends,
        performance_health := performanceHealth analytics.performance_metrics,
        complexity_health := complexityHealth analytics.complexity_indicators },
    recommendations := some analytics.recommendations,
    error := none }

/-- The analytics attempt inside `get_context_health_score`: a failed
context fetch propagates, a fetched context is analyzed
(`analyze_context_patterns` re-raises its own failures). -/
def analyzeFetched (fetched : Except String PromptCtx) :
    Except String ContextAnalytics :=
  match fetched with
  | .error e => .error e
  | .ok context => analyzeContextPatterns context

/-- `get_context_health_score` of `context_engine.py`.  The `fetched`
argument models the outcome of `generate_prompt_context` (a storage
failure or a missing task arrives as `Except.error`); the `try`/`except`
around the whole body converts any failure — fetch, analysis or the
scoring arithmetic — into the degraded report. -/
def getContextHealthScore (fetched : Except String PromptCtx) :
    HealthReport :=
  match analyzeFetched fetched with
  | .error e =>
      { overall_score := 0, health_status := "error",
        component_scores := none, recommendations := none,
        error := some e }
  | .ok analytics => healthReportOf analytics

/-- `_format_structured_context` of `context_engine.py`: the ordered
section lines joined with newlines.  A `None` description is rendered
`"None"` by the f-string (the `'N/A'` default is dead, the key is always
present). -/
def formatStructuredContext (context : PromptCtx) : String :=
  let ts := context.task_summary
  let base : List String :=
    ["## Task Summary",
     "**ID**: " ++ ts.id,
     "**Title**: " ++ ts.title,
     "**Status**: " ++ ts.status,
     "**Priority**: " ++ ts.priority]
  let complexity_lines : List String :=
    if intTruthy ts.complexity_score then
      ["**Complexity**: " ++ toString (ts.complexity_score.getD 0) ++ "/10"]
    else []
  let description_lines : List String :=
    ["**Description**: " ++ ts.description.getD "None"]
  let dep_ctx := context.dependency_context
  let dependency_lines : List String :=
    if dep_ctx.hasDependencies then
      ["\n## Dependencies",
       "**Total Dependencies**: " ++ toString dep_ctx.totalDependencies,
       "**Completed**: " ++ toString dep_ctx.completedDependencies,
       "**Pending**: " ++ toString dep_ctx.pendingDependencies,
       "**Ready to Start**: " ++ if dep_ctx.isReady then "Yes" else "No"]
    else []
  let interaction_lines : List String :=
    if listTruthy context.recent_interactions then
      "\n## Recent AI Interactions" ::
        (((context.recent_interactions.getD []).take 3).enum.flatMap
          fun p =>
            ("**Interaction " ++ toString (p.1 + 1) ++ "**: " ++
                p.2.interaction_type ++ " by " ++ p.2.agent_name) ::
              if optTruthy p.2.error_message then
                ["  - Error: " ++ p.2.error_message.getD ""]
              else [])
    else []
  let validation_lines : List String :=
    if listTruthy context.validation_history then
      "\n## Recent Validations" ::
        ((context.validation_history.getD []).take 3).map fun v =>
          let status_emoji :=
            if v.status = "passed" then "✅"
            else if v.status = "failed" then "❌"
            else "⚠️"
          status_emoji ++ " **" ++ v.validation_type ++ "**: " ++
            v.status ++ " (" ++ v.validator_name ++ ")"
    else []
  let codebase_lines : List String :=
    if optTruthy context.codebase_context then
      ["\n## Codebase Context",
       "Recent file changes and code context available"]
    else []
  String.intercalate "\n"
    (base ++ complexity_lines ++ description_lines ++ dependency_lines ++
      interaction_lines ++ validation_lines ++ codebase_lines)

/-- The error count of the narrative formatter's interaction sentence:
`sum(1 for i in context.recent_interactions if not i.get('success',
True))`. -/
def narrativeErrorCount (interactions : List Interaction) : Nat :=
  interactions.countP fun i => ¬ (i.success.getD true)

/-- The interaction sentence block of `_format_narrative_context`
(lines 526-532 of `context_engine.py`): at most one sentence, the
error-containing wording exactly when the error count is positive. -/
def narrativeInteractionSentences
    (recent_interactions : Option (List Interaction)) : List String :=
  if listTruthy recent_interactions then
    let is := recent_interactions.getD []
    let interaction_count := is.length
    let error_count := narrativeErrorCount is
    if error_count > 0 then
      ["There have been " ++ toString interaction_count ++
        " recent AI interactions with " ++ toString error_count ++
        " errors that may need attention."]
    else
      ["There have been " ++ toString interaction_count ++
        " successful recent AI interactions."]
  else []

/-- `_format_narrative_context` of `context_engine.py`: the sentences
joined with single spaces. -/
def formatNarrativeContext (context : PromptCtx) : String :=
  let task := context.task_summary
  let intro : List String :=
    ["You are working on task '" ++ task.title ++ "' (ID: " ++ task.id ++
      "), which is currently " ++ task.status ++ " with " ++
      task.priority ++ " priority."]
  let description_sentence : List String :=
    if optTruthy task.description then
      ["The task involves: " ++ task.description.getD ""]
    else []
  let dep_ctx := context.dependency_context
  let dependency_sentence : List String :=
    if dep_ctx.hasDependencies then
      if dep_ctx.isReady then
        ["All dependencies have been satisfied and the task is ready to begin."]
      else
        ["This task has " ++ toString dep_ctx.pendingDependencies ++
          " pending dependencies that must be completed first."]
    else []
  let complexity_sentence : List String :=
    if intTruthy task.complexity_score then
      let s := task.complexity_score.getD 0
      let described : Option String :=
        if 1 ≤ s ∧ s < 4 then some "low complexity"
        else if 4 ≤ s ∧ s < 7 then some "medium complexity"
        else if 7 ≤ s ∧ s < 9 then some "high complexity"
        else if 9 ≤ s ∧ s < 11 then some "very high complexity"
        else none
      match described with
      | some desc =>
          ["This is a " ++ desc ++ " task (score: " ++ toString s ++ "/10)."]
      | none => []
    else []
  let interaction_sentence :=
    narrativeInteractionSentences context.recent_interactions
  let validation_sentence : List String :=
    if listTruthy context.validation_history then
      let recent_validations := (context.validation_history.getD []).take 3
      let passed := recent_validations.countP fun v => v.status = "passed"
      ["Recent validation results show " ++ toString passed ++ "/" ++
        toString recent_validations.length ++ " checks passing."]
    else []
  String.intercalate " "
    (intro ++ description_sentence ++ dependency_sentence ++
      complexity_sentence ++ interaction_sentence ++ validation_sentence)

/-- Models `json.dumps(context.__dict__, indent=2, default=str)`: a total
structural rendering of the whole snapshot.  The exact JSON surface
syntax is not modelled; no claim depends on the dump's text, only on the
call succeeding. -/
def jsonDump (context : PromptCtx) : String :=
  toString (repr context)

/-- `export_context_for_prompt` of `context_engine.py`, from a generated
`PromptContext` onward: the format dispatch accepts `structured`,
`narrative` and `json`, and raises
`ValueError(f"Unsupported format type: {format_type}")` for every other
token. -/
def exportContextForPrompt (context : PromptCtx) (format_type : String) :
    Except String String :=
  if format_type = "structured" then .ok (formatStructuredContext context)
  else if format_type = "narrative" then .ok (formatNarrativeContext context)
  else if format_type = "json" then .ok (jsonDump context)
  else .error ("Unsupported format type: " ++ format_type)

/-- The context-bundle fields of the `TaskContext` dataclass that the
row loop of `get_task_context` can populate, with the payloads opaque.
`metadata` is a field of the dataclass but no branch of the loop assigns
it. -/
structure TaskContextBundle (α : Type) where
  requirements_context : Option α
  codebase_context : Option α
  workflow_state : Option α
  performance_metrics : Option α
  metadata : Option α
deriving DecidableEq, Repr

/-- The bundle before any row is processed: every field `None`. -/
def emptyBundle {α : Type} : TaskContextBundle α :=
  { requirements_context := none, codebase_context := none,
    workflow_state := none, performance_metrics := none, metadata := none }

/-- One iteration of the context-row loop of `get_task_context`
(`task_storage.py` lines 450-461): assign the row's payload to the field
selected by its `context_type`; any other type (including `metadata`)
falls through. -/
def applyContextRow {α : Type} (context : TaskContextBundle α)
    (row : String × α) : TaskContextBundle α :=
  if row.1 = "requirements" then
    { context with requirements_context := some row.2 }
  else if row.1 = "codebase" then
    { context with codebase_context := some row.2 }
  else if row.1 = "workflow" then
    { context with workflow_state := some row.2 }
  else if row.1 = "performance" then
    { context with performance_metrics := some row.2 }
  else context

/-- The context-row loop of `get_task_context`, over the active rows as
fetched: `ORDER BY created_at DESC`, newest first. -/
def processContextRows {α : Type} (rows : List (String × α)) :
    TaskContextBundle α :=
  rows.foldl applyContextRow emptyBundle

/-- `generate_prompt_context` of `context_engine.py`, from the fetched
storage data onward: `context_rows` are the active context rows newest
first, `ai_interactions` and `validation_results` the newest-first
histories of `get_task_context` (already capped at 50 and 20 by its
queries), `dependencies` and `lookup` the dependency fetch, and
`performance_rows` the newest-first metric rows.  The `NotFound` failure
for an absent task happens before any of these fetches and is modelled at
the call sites. -/
def generatePromptContext (task : AtomicTask)
    (context_rows : List (String × String))
    (ai_interactions : List Interaction)
    (validation_results : List ValidationRec)
    (dependencies : List String) (lookup : String → Option AtomicTask)
    (performance_rows : List MetricRow)
    (include_history : Bool) (max_interactions max_validations : Nat) :
    PromptCtx :=
  let full_context := processContextRows context_rows
  let recent_interactions : Option (List Interaction) :=
    if include_history ∧ ai_interactions ≠ [] then
      some (ai_interactions.take max_interactions)
    else none
  let validation_history : Option (List ValidationRec) :=
    if include_history ∧ validation_results ≠ [] then
      some (validation_results.take max_validations)
    else none
  { task_id := task.id,
    task_summary := taskSummaryOf task,
    requirements_context := full_context.requirements_context,
    codebase_context := full_context.codebase_context,
    recent_interactions := recent_interactions,
    validation_history := validation_history,
    dependency_context := buildDependencyContext dependencies lookup,
    performance_context := getPerformanceContext performance_rows,
    workflow_state := full_context.workflow_state,
    metadata := full_context.metadata }

/-- The position of a complexity bucket in the order
low < medium < high < very_high (used to state monotonicity). -/
def complexityRank : String → Nat
  | "low" => 0
  | "medium" => 1
  | "high" => 2
  | "very_high" => 3
  | _ => 0

/-- Following the spec's words, as amended: the fixed, ordered,
non-exclusive recommendation rule list, each rule paired with its firing
condition.  `avg_ms` is the numeric average interaction time the guard
compares against `5000` (the source raises before reaching this list when
the stored average is `None`).  The second entry is the high-complexity
rule the source emits but the claim's list omits; it is reached only when
the very-high rule did not fire. -/
def recommendationRules (complexity : ComplexityIndicators)
    (interactions : InteractionAnalysis) (validations : ValidationAnalysis)
    (performance : PerformanceAnalysis) (avg_ms : Rat) :
    List (Bool × String) :=
  [(complexity.overall_complexity = "very_high", recVeryHighComplexity),
   (¬ complexity.overall_complexity = "very_high" ∧
      complexity.overall_complexity = "high", recHighComplexity),
   (complexity.dependency_count > 3, recManyDependencies),
   (interactions.errorRateD > 3/10, recHighErrorRate),
   (avg_ms > 5000, recLongInteractionTimes),
   (validations.passRateD < 7/10, recLowPassRate),
   (validations.recentTrend? = some "declining", recValidationDeclining),
   (performance.executionTimeTrend? = some "declining",
     recPerformanceDeclining),
   (¬ interactions.hasInteractions, recNoInteractions),
   (¬ validations.hasValidations, recNoValidations)]

/-- Following the spec's words, as amended: all matching rules of the
fixed list, emitted in the fixed order. -/
def matchingRecommendations (complexity : ComplexityIndicators)
    (interactions : InteractionAnalysis) (validations : ValidationAnalysis)
    (performance : PerformanceAnalysis) (avg_ms : Rat) : List String :=
  ((recommendationRules complexity interactions validations performance
      avg_ms).filter fun r => r.1).map fun r => r.2

/-- Following the spec's words: the value of the most recent row of a
context type is the FIRST matching row of the newest-first fetch order;
the source's loop instead keeps the LAST matching row (the oldest).  This
definition captures the source's behaviour for comparison: the last
matching payload, `none` when the type never occurs. -/
def lastValueOf {α : Type} (context_type : String)
    (rows : List (String × α)) : Option α :=
  ((rows.filter fun r => r.1 = context_type).map fun r => r.2).getLast?

/-- A validation record with only the status varying (scenario-B
records carry no score). -/
def vrec (status : String) : ValidationRec :=
  { validation_type := "tests", validator_name := "pytest",
    status := status, score := none }

/-- Scenario B of the spec: five validations, newest first. -/
def scenarioB : List ValidationRec :=
  [vrec ("passed"), vrec ("passed"), vrec ("failed"), vrec ("passed"),
   vrec ("failed")]

/-- A minimal concrete task for witnesses. -/
def exampleTask : AtomicTask :=
  { id := "task-001", title := "Sample task", description := none,
    status := .pending, priority := .medium, complexity_score := none,
    affected_files := [] }

/-- A minimal concrete prompt context for witnesses: no history, no
dependencies, no metrics. -/
def exampleCtx : PromptCtx :=
  { task_id := "task-001", task_summary := taskSummaryOf exampleTask,
    requirements_context := none, codebase_context := none,
    recent_interactions := none, validation_history := none,
    dependency_context := .noDeps, performance_context := .noMetrics,
    workflow_state := none, metadata := none }

/-- A concrete completed parent task. -/
def doneParent (id : String) : AtomicTask :=
  { id := id, title := "Parent " ++ id, description := none,
    status := .done, priority := .high, complexity_score := some 3,
    affected_files := [] }

/-- A concrete lookup resolving two completed parents. -/
def exampleLookup : String → Option AtomicTask := fun dep_id =>
  if dep_id = "dep-1" then some (doneParent ("dep-1"))
  else if dep_id = "dep-2" then some (doneParent ("dep-2"))
  else none

/-- An interaction that succeeded but reported no execution time. -/
def interactionNoTime : Interaction :=
  { interaction_type := "prompt", agent_name := "codegen",
    success := some true, execution_time_ms := none,
    error_message := none }

/-- An interaction whose record lacks the success field. -/
def interactionNoSuccess : Interaction :=
  { interaction_type := "response", agent_name := "codegen",
    success := none, execution_time_ms := none, error_message := none }

/-- A failed interaction (success present and falsy). -/
def interactionFailed : Interaction :=
  { interaction_type := "error", agent_name := "codegen",
    success := some false, execution_time_ms := none,
    error_message := some ("boom") }

/-- An interaction carrying a negative execution time, as the storage
schema and the `AIInteraction` dataclass allow. -/
def negTimeInteraction : Interaction :=
  { interaction_type := "prompt", agent_name := "codegen",
    success := some true, execution_time_ms := some (-100000),
    error_message := none }

/-- The example context with one negative-time interaction. -/
def negTimeCtx : PromptCtx :=
  { exampleCtx with recent_interactions := some [negTimeInteraction] }

/-- The analytics report the engine produces for `negTimeCtx`: one
error-free interaction whose average execution time is the stored
negative value. -/
def negTimeAnalytics : ContextAnalytics :=
  { task_id := "task-001",
    complexity_indicators := analyzeComplexity negTimeCtx,
    interaction_patterns := .data 1 0 0 (some (-100000)) 1,
    validation_trends := .noData,
    performance_metrics := .noData,
    recommendations := [recNoValidations] }

/-- The analytics report the engine produces for `exampleCtx`. -/
def exampleAnalytics : ContextAnalytics :=
  { task_id := "task-001",
    complexity_indicators := analyzeComplexity exampleCtx,
    interaction_patterns := .noData,
    validation_trends := .noData,
    performance_metrics := .noData,
    recommendations := [recNoInteractions, recNoValidations] }

/-- A concrete execution-time metric row. -/
def execRow (value : Rat) : MetricRow :=
  { metric_type := "execution_time", metric_name := "prompt_generation",
    metric_value := some value, unit := some ("ms") }

/-- A concrete memory metric row (not an execution time). -/
def memRow : MetricRow :=
  { metric_type := "memory", metric_name := "rss",
    metric_value := some 512, unit := some ("mb") }

/-- Claim C6, counterexample: for the newest-first scenario-B history of
five records, `recent` is `validations[:5 // 2]` — the first TWO records,
with pass rate 1 — not the first three with pass rate 0.667 as the claim
states. -/
theorem validation_trend_split_counterexample :
    recentHalf scenarioB ≠
      [vrec ("passed"), vrec ("passed"), vrec ("failed")] ∧
    halfPassRate (recentHalf scenarioB) ≠ 2/3 := by
  constructor
  · decide
  · have hrec : recentHalf scenarioB = [vrec ("passed"), vrec ("passed")] :=
      by decide
    rw [hrec]
    norm_num [halfPassRate, vrec, List.filter]

/-- Claim C6, amended: for scenario B the analysis yields pass rate 3/5
and the midpoint split assigns `recent = [passed, passed]` (pass rate 1)
and `older = [failed, passed, failed]` (pass rate 1/3); the difference
2/3 exceeds 0.1, so the trend is `improving`.  Any history of fewer than
three records yields `insufficient_data` regardless of content. -/
theorem validation_trend_scenarioB :
    (analyzeValidations (some scenarioB) =
        .data 5 none (3/5) "improving" ∧
      recentHalf scenarioB = [vrec ("passed"), vrec ("passed")] ∧
      olderHalf scenarioB =
        [vrec ("failed"), vrec ("passed"), vrec ("failed")] ∧
      halfPassRate (recentHalf scenarioB) = 1 ∧
      halfPassRate (olderHalf scenarioB) = 1/3 ∧
      calculateValidationTrend scenarioB = "improving") ∧
    (∀ validations : List ValidationRec, validations.length < 3 →
      calculateValidationTrend validations = "insufficient_data") := by
  have hrec : recentHalf scenarioB = [vrec ("passed"), vrec ("passed")] :=
    by decide
  have hold : olderHalf scenarioB =
      [vrec ("failed"), vrec ("passed"), vrec ("failed")] := by decide
  have hf1 :
      ((recentHalf scenarioB).filter fun v => v.status = "passed").length
        = 2 := by decide
  have hl1 : (recentHalf scenarioB).length = 2 := by decide
  have hf2 :
      ((olderHalf scenarioB).filter fun v => v.status = "passed").length
        = 1 := by decide
  have hl2 : (olderHalf scenarioB).length = 3 := by decide
  have hr1 : halfPassRate (recentHalf scenarioB) = 1 := by
    unfold halfPassRate; rw [hf1, hl1]; norm_num
  have hr2 : halfPassRate (olderHalf scenarioB) = 1/3 := by
    unfold halfPassRate; rw [hf2, hl2]; norm_num
  have htrend : calculateValidationTrend scenarioB = "improving" := by
    unfold calculateValidationTrend
    rw [if_neg (by decide), hr1, hr2]
    norm_num
  refine ⟨⟨?_, hrec, hold, hr1, hr2, htrend⟩, ?_⟩
  · unfold analyzeValidations
    rw [if_neg (by decide)]
    simp only [Option.getD_some, ValidationAnalysis.data.injEq]
    refine ⟨by decide, ?_, ?_, htrend⟩
    · have hsc : (scenarioB.filterMap fun v => v.score) = [] := by decide
      rw [hsc]; simp
    · have hcount : (scenarioB.countP fun v => v.status = "passed") = 3 :=
        by decide
      have hlen : scenarioB.length = 5 := by decide
      rw [hcount, hlen]; norm_num
  · intro validations h
    unfold calculateValidationTrend
    rw [if_pos h]

/-- Claim C6, witness: the short-history branch of the trend theorem at a
one-record history. -/
theorem validation_trend_scenarioB_witness :
    calculateValidationTrend [vrec ("passed")] = "insufficient_data" :=
  validation_trend_scenarioB.2 [vrec ("passed")] (by decide)

/-- Claim C1, counterexample: the format token `raw` is not accepted by
the export dispatch — it falls through to the `ValueError` branch; the
token the structural-dump format actually answers to is `json`. -/
theorem export_format_raw_counterexample :
    exportContextForPrompt exampleCtx "raw" =
      .error ("Unsupported format type: raw") ∧
    (∃ s, exportContextForPrompt exampleCtx "json" = .ok s) := by
  constructor
  · rfl
  · exact ⟨jsonDump exampleCtx, rfl⟩

/-- Claim C1, amended: for every context and format token, the export
succeeds exactly for the tokens `structured`, `narrative` and `json`, and
every other token (including `raw`) fails with
`ValueError: Unsupported format type`. -/
theorem export_format_dispatch (context : PromptCtx)
    (format_type : String) :
    ((∃ s, exportContextForPrompt context format_type = .ok s) ↔
      (format_type = "structured" ∨ format_type = "narrative" ∨
        format_type = "json")) ∧
    (¬ (format_type = "structured" ∨ format_type = "narrative" ∨
        format_type = "json") →
      exportContextForPrompt context format_type =
        .error ("Unsupported format type: " ++ format_type)) := by
  unfold exportContextForPrompt
  split_ifs with h1 h2 h3 <;> simp_all

/-- Claim C1, witness: the rejection branch of the dispatch theorem at
the token `yaml`. -/
theorem export_format_dispatch_witness :
    ¬ ("yaml" = "structured" ∨ "yaml" = "narrative" ∨ "yaml" = "json") ∧
    exportContextForPrompt exampleCtx "yaml" =
      .error ("Unsupported format type: yaml") :=
  ⟨by decide, (export_format_dispatch exampleCtx "yaml").2 (by decide)⟩

/-- Claim C2: the health scorer never propagates a failure.  Whatever the
outcome of the fetch-and-analyze pipeline — a storage failure, a missing
task, or an internal analysis failure such as the recommendation
generator's `TypeError` — the caller always receives a report: a failing
pipeline yields the degraded report with overall score 0, status `error`
and the cause attached, and a successful pipeline yields a normal report
with no error attached. -/
theorem health_score_never_raises (fetched : Except String PromptCtx) :
    (∃ e, analyzeFetched fetched = .error e ∧
      getContextHealthScore fetched =
        { overall_score := 0, health_status := "error",
          component_scores := none, recommendations := none,
          error := some e }) ∨
    (∃ analytics, analyzeFetched fetched = .ok analytics ∧
      getContextHealthScore fetched = healthReportOf analytics ∧
      (getContextHealthScore fetched).error = none) := by
  cases h : analyzeFetched fetched with
  | error e => exact .inl ⟨e, rfl, by simp [getContextHealthScore, h]⟩
  | ok analytics =>
      exact .inr ⟨analytics, rfl, by simp [getContextHealthScore, h],
        by simp [getContextHealthScore, h, healthReportOf]⟩

/-- Claim C3: for a task whose dependency list resolves to at least one
parent, the summary counts parents with status `done` as completed,
`pending`/`in-progress` as pending and `blocked`/`deferred` as blocked;
readiness is exactly (no pending and no blocked), so an all-`done` parent
set is ready and any pending, in-progress, blocked or deferred parent
destroys readiness. -/
theorem dependency_readiness (dependencies : List String)
    (lookup : String → Option AtomicTask)
    (h : dependencies.filterMap lookup ≠ []) :
    (buildDependencyContext dependencies lookup).completedDependencies =
      ((dependencies.filterMap lookup).countP fun t =>
        t.status = .done) ∧
    (buildDependencyContext dependencies lookup).pendingDependencies =
      ((dependencies.filterMap lookup).countP fun t =>
        t.status = .pending ∨ t.status = .inProgress) ∧
    (buildDependencyContext dependencies lookup).blockedDependencies =
      ((dependencies.filterMap lookup).countP fun t =>
        t.status = .blocked ∨ t.status = .deferred) ∧
    ((buildDependencyContext dependencies lookup).isReady = true ↔
      ((buildDependencyContext dependencies lookup).pendingDependencies = 0 ∧
        (buildDependencyContext dependencies lookup).blockedDependencies
          = 0)) ∧
    ((∀ t ∈ dependencies.filterMap lookup, t.status = .done) →
      (buildDependencyContext dependencies lookup).isReady = true) ∧
    ((∃ t ∈ dependencies.filterMap lookup,
        t.status = .pending ∨ t.status = .inProgress ∨
        t.status = .blocked ∨ t.status = .deferred) →
      (buildDependencyContext dependencies lookup).isReady = false) := by
  have hdeps : ¬ dependencies = [] := by
    intro hnil; subst hnil; simp at h
  simp only [buildDependencyContext, if_neg hdeps,
    DependencyContext.completedDependencies,
    DependencyContext.pendingDependencies,
    DependencyContext.blockedDependencies, DependencyContext.isReady,
    ← List.countP_eq_length_filter, ← List.map_filterMap,
    List.countP_map]
  refine ⟨?_, ?_, ?_, ?_, ?_, ?_⟩
  · exact List.countP_congr fun t _ => by
      rcases t with ⟨_, _, _, st, _, _, _⟩
      cases st <;> simp [Function.comp, TaskStatus.value]
  · exact List.countP_congr fun t _ => by
      rcases t with ⟨_, _, _, st, _, _, _⟩
      cases st <;> simp [Function.comp, TaskStatus.value]
  · exact List.countP_congr fun t _ => by
      rcases t with ⟨_, _, _, st, _, _, _⟩
      cases st <;> simp [Function.comp, TaskStatus.value]
  · simp [decide_eq_true_eq]
  · intro hall
    simp only [decide_eq_true_eq]
    constructor
    · rw [List.countP_eq_zero]
      intro t ht
      have hst := hall t ht
      rcases t with ⟨_, _, _, st, _, _, _⟩
      simp only at hst
      subst hst
      simp [Function.comp, TaskStatus.value]
    · rw [List.countP_eq_zero]
      intro t ht
      have hst := hall t ht
      rcases t with ⟨_, _, _, st, _, _, _⟩
      simp only at hst
      subst hst
      simp [Function.comp, TaskStatus.value]
  · rintro ⟨t, ht, hstat⟩
    simp only [decide_eq_false_iff_not]
    rintro ⟨hp0, hb0⟩
    rcases t with ⟨tid, ttitle, tdesc, st, tprio, tscore, tfiles⟩
    simp only at hstat
    rcases hstat with hst | hst | hst | hst <;> subst hst
    · have := List.countP_eq_zero.mp hp0 _ ht
      simp [Function.comp, TaskStatus.value] at this
    · have := List.countP_eq_zero.mp hp0 _ ht
      simp [Function.comp, TaskStatus.value] at this
    · have := List.countP_eq_zero.mp hb0 _ ht
      simp [Function.comp, TaskStatus.value] at this
    · have := List.countP_eq_zero.mp hb0 _ ht
      simp [Function.comp, TaskStatus.value] at this

/-- Claim C3, witness: two resolved parents, both `done`, give a ready
summary. -/
theorem dependency_readiness_witness :
    (buildDependencyContext ["dep-1", "dep-2"] exampleLookup).isReady
      = true :=
  (dependency_readiness ["dep-1", "dep-2"] exampleLookup
    (by decide)).2.2.2.2.1 (by decide)

/-- Helper: the complexity-score contribution is monotone on nonnegative
scores. -/
theorem scoreFactor_mono (s₁ s₂ : Int) (h0 : 0 ≤ s₁) (h : s₁ ≤ s₂) :
    scoreFactor (some s₁) ≤ scoreFactor (some s₂) := by
  unfold scoreFactor
  simp only [intTruthy, Option.getD_some, decide_eq_true_eq]
  split_ifs <;> omega

/-- Helper: the affected-files contribution is monotone. -/
theorem filesFactor_mono (f₁ f₂ : Nat) (h : f₁ ≤ f₂) :
    filesFactor f₁ ≤ filesFactor f₂ := by
  unfold filesFactor
  split_ifs <;> omega

/-- Helper: the bucket rank is monotone in the factor count. -/
theorem bucketRank_mono (m n : Nat) (h : m ≤ n) :
    complexityRank (complexityBucket m) ≤
      complexityRank (complexityBucket n) := by
  unfold complexityBucket
  split_ifs <;> simp [complexityRank] <;> omega

/-- Claim C8: with the other inputs held fixed, the overall complexity
bucket (ordered low < medium < high < very_high) is monotone
non-decreasing as the complexity score increases over 0-10, and monotone
non-decreasing as the affected-files count increases. -/
theorem complexity_bucket_monotonic (s₁ s₂ : Int)
    (files₁ files₂ deps files : Nat) (score : Option Int) :
    (0 ≤ s₁ → s₁ ≤ s₂ → s₂ ≤ 10 →
      complexityRank (overallComplexity (some s₁) files deps) ≤
        complexityRank (overallComplexity (some s₂) files deps)) ∧
    (files₁ ≤ files₂ →
      complexityRank (overallComplexity score files₁ deps) ≤
        complexityRank (overallComplexity score files₂ deps)) := by
  constructor
  · intro h0 h12 _
    unfold overallComplexity complexityFactors
    exact bucketRank_mono _ _
      (by have := scoreFactor_mono s₁ s₂ h0 h12; omega)
  · intro hf
    unfold overallComplexity complexityFactors
    exact bucketRank_mono _ _
      (by have := filesFactor_mono files₁ files₂ hf; omega)

/-- Claim C8, witness: raising the score from 3 to 8 and the file count
from 0 to 6 both weakly raise the bucket. -/
theorem complexity_bucket_monotonic_witness :
    complexityRank (overallComplexity (some 3) 4 0) ≤
      complexityRank (overallComplexity (some 8) 4 0) ∧
    complexityRank (overallComplexity (some 8) 0 0) ≤
      complexityRank (overallComplexity (some 8) 6 0) :=
  ⟨(complexity_bucket_monotonic 3 8 0 6 0 4 (some 8)).1 (by decide)
      (by decide) (by decide),
    (complexity_bucket_monotonic 3 8 0 6 0 4 (some 8)).2 (by decide)⟩

/-- Helper: when every row of a list carries a present value, summing the
truthy mapped values equals summing the raw values (a zero raw value is
mapped to `none` but contributes nothing to either sum). -/
theorem sum_truthy_values (rows : List MetricRow)
    (h : ∀ r ∈ rows, r.metric_value.isSome) :
    ((rows.map metricOfRow).filterMap fun m => m.value).sum =
      (rows.map fun r => r.metric_value.getD 0).sum := by
  induction rows with
  | nil => simp
  | cons r t ih =>
      have hr : r.metric_value.isSome := h r (by simp)
      have ht : ∀ x ∈ t, x.metric_value.isSome := fun x hx =>
        h x (by simp [hx])
      obtain ⟨v, hv⟩ := Option.isSome_iff_exists.mp hr
      by_cases hz : v = 0
      · simp [metricOfRow, hv, hz, ratTruthy]
        rw [← List.filterMap_map]
        exact ih ht
      · simp [metricOfRow, hv, hz, ratTruthy]
        rw [← List.filterMap_map, ih ht]

/-- Claim C9: over the fetched newest-first rows, when at least one row
has metric type `execution_time` and every such row carries a non-null
value, the reported average is the arithmetic mean of exactly those rows'
values; with no execution-time row the average is absent. -/
theorem performance_avg_execution_time (rows : List MetricRow)
    (h : ∀ r ∈ rows, r.metric_type = "execution_time" →
      r.metric_value.isSome) :
    ((rows.filter fun r => r.metric_type = "execution_time") ≠ [] →
      (getPerformanceContext rows).avgExecutionTime? =
        some
          (((rows.filter fun r =>
              r.metric_type = "execution_time").map fun r =>
                r.metric_value.getD 0).sum /
            (((rows.filter fun r =>
              r.metric_type = "execution_time").length : Nat) : Rat))) ∧
    ((rows.filter fun r => r.metric_type = "execution_time") = [] →
      (getPerformanceContext rows).avgExecutionTime? = none) := by
  have hkey : (rows.map metricOfRow).filter
      (fun m => m.mtype = "execution_time") =
      (rows.filter fun r => r.metric_type = "execution_time").map
        metricOfRow := by
    rw [List.filter_map]
    congr 1
  constructor
  · intro hne
    have hrows : ¬ rows = [] := by
      intro hnil; subst hnil; simp at hne
    unfold getPerformanceContext
    rw [if_neg hrows]
    simp only [PerformanceContext.avgExecutionTime?, hkey]
    rw [if_pos (by simpa using hne)]
    have hsum := sum_truthy_values
      (rows.filter fun r => r.metric_type = "execution_time")
      (fun r hr => h r (List.mem_of_mem_filter hr)
        (by simpa using List.of_mem_filter hr))
    rw [hsum, List.length_map]
  · intro hnil
    unfold getPerformanceContext
    split_ifs with hrows
    · simp [PerformanceContext.avgExecutionTime?]
    · simp only [PerformanceContext.avgExecutionTime?, hkey, hnil]
      simp

/-- Claim C9, witness: two execution-time rows of 100 ms and 200 ms among
a memory row average to 150 ms. -/
theorem performance_avg_execution_time_witness :
    (getPerformanceContext [execRow 100, memRow, execRow 200]).avgExecutionTime?
      = some 150 := by
  have h := (performance_avg_execution_time
    [execRow 100, memRow, execRow 200] (by decide)).1 (by decide)
  rw [h]
  have hfilter : ([execRow 100, memRow, execRow 200].filter fun r =>
      r.metric_type = "execution_time") = [execRow 100, execRow 200] := rfl
  rw [hfilter]
  simp [execRow, List.sum_cons, List.sum_nil]
  norm_num

/-- Claim C10: an interaction record that lacks the success field is
treated as successful throughout: the interaction analysis counts as
errors exactly the records whose success field is present and falsy, the
narrative formatter's error sentence counts the same records, and the
presence of a field-less record makes the reported success rate strictly
higher than it would be if such records counted as failures. -/
theorem missing_success_treated_successful
    (interactions : List Interaction) (h : interactions ≠ []) :
    (analyzeInteractions (some interactions)).errorCountD =
      (interactions.countP fun i => i.success = some false) ∧
    narrativeErrorCount interactions =
      (interactions.countP fun i => i.success = some false) ∧
    ((∃ i ∈ interactions, i.success = none) →
      (analyzeInteractions (some interactions)).successRateD >
        1 - ((interactions.countP fun i =>
            i.success = some false ∨ i.success = none : Nat) : Rat) /
          (interactions.length : Rat)) := by
  have hcongr : (interactions.countP fun i => ¬ (i.success.getD true)) =
      interactions.countP fun i => i.success = some false :=
    List.countP_congr fun i _ => by
      rcases i with ⟨_, _, s, _, _⟩
      rcases s with _ | b
      · simp
      · cases b <;> simp
  have htr : ¬ (¬ listTruthy (some interactions) = true) := by
    cases interactions with
    | nil => exact absurd rfl h
    | cons a t => simp [listTruthy]
  unfold analyzeInteractions
  rw [if_neg htr]
  simp only [InteractionAnalysis.errorCountD,
    InteractionAnalysis.successRateD, Option.getD_some]
  refine ⟨hcongr, ?_, ?_⟩
  · unfold narrativeErrorCount
    exact hcongr
  · rintro ⟨i, hi, hnone⟩
    have hlt : (interactions.countP fun i => i.success = some false) <
        interactions.countP fun i =>
          i.success = some false ∨ i.success = none := by
      obtain ⟨s, t, hst⟩ := List.append_of_mem hi
      subst hst
      rw [List.countP_append, List.countP_append, List.countP_cons,
        List.countP_cons]
      have h1 : List.countP (fun i => decide (i.success = some false))
          s ≤ List.countP (fun i =>
            decide (i.success = some false ∨ i.success = none)) s :=
        List.countP_mono_left fun x _ hx => by
          simp only [decide_eq_true_eq] at hx ⊢; exact .inl hx
      have h2 : List.countP (fun i => decide (i.success = some false))
          t ≤ List.countP (fun i =>
            decide (i.success = some false ∨ i.success = none)) t :=
        List.countP_mono_left fun x _ hx => by
          simp only [decide_eq_true_eq] at hx ⊢; exact .inl hx
      have hone : (if decide (i.success = some false) = true
          then 1 else 0) = 0 := by simp [hnone]
      have htwo : (if decide (i.success = some false ∨ i.success = none)
          = true then 1 else 0) = 1 := by simp [hnone]
      rw [hone, htwo]
      omega
    have hn : (0 : Rat) < (interactions.length : Rat) := by
      have : 0 < interactions.length := by
        cases interactions with
        | nil => exact absurd rfl h
        | cons a t => simp
      exact_mod_cast this
    rw [hcongr]
    have hdiv := (div_lt_div_right hn).mpr
      (show ((interactions.countP fun i => i.success = some false : Nat)
          : Rat) <
        ((interactions.countP fun i =>
            i.success = some false ∨ i.success = none : Nat) : Rat) by
        exact_mod_cast hlt)
    linarith

/-- Claim C10, witness: of a field-less record and a failed record, only
the failed one is counted as an error. -/
theorem missing_success_treated_successful_witness :
    (analyzeInteractions
      (some [interactionNoSuccess, interactionFailed])).errorCountD = 1 := by
  rw [(missing_success_treated_successful
    [interactionNoSuccess, interactionFailed] (by decide)).1]
  decide

/-- Claim C4, counterexample: recommendation generation CAN fail.  With
one interaction on record but no recorded execution time, the analysis
carries `avg_execution_time_ms = None`, and the guard
`interactions.get('avg_execution_time_ms', 0) > 5000` compares `None`
with an integer, raising `TypeError`. -/
theorem recommendations_type_error_counterexample :
    generateRecommendations (analyzeComplexity exampleCtx)
        (analyzeInteractions (some [interactionNoTime]))
        (analyzeValidations none) (analyzePerformance .noMetrics) =
      .error ("TypeError: '>' not supported between instances of 'NoneType' and 'int'") :=
  rfl

/-- Helper: filtering a condition-tagged rule list and keeping the texts
is the concatenation of the conditional singletons. -/
theorem filter_map_rules (rules : List (Bool × String)) :
    ((rules.filter fun r => r.1).map fun r => r.2) =
      rules.flatMap fun r => if r.1 then [r.2] else [] := by
  induction rules with
  | nil => rfl
  | cons a as ih =>
      cases ha : a.1 <;> simp [List.filter_cons, ha, ih]

/-- Helper: an `if`/`elif` pair of singleton appends splits into two
independent conditional segments. -/
theorem if_elif_split (P Q : Prop) [Decidable P] [Decidable Q]
    (a b : String) :
    (if P then [a] else if Q then [b] else []) =
      (if P then [a] else []) ++ (if ¬ P ∧ Q then [b] else []) := by
  by_cases h : P <;> by_cases h2 : Q <;> simp [h, h2]

/-- Claim C4, amended: generation fails (with the `TypeError`) exactly
when interactions exist but their stored average execution time is
`None`; otherwise the emitted list is exactly the matching rules of the
fixed, ordered, non-exclusive rule list — which also contains the
high-complexity thorough-testing rule the claim omits. -/
theorem recommendations_rule_list (complexity : ComplexityIndicators)
    (interactions : InteractionAnalysis)
    (validations : ValidationAnalysis)
    (performance : PerformanceAnalysis) :
    ((∃ e, generateRecommendations complexity interactions validations
        performance = .error e) ↔
      interactions.avgExecutionTimeD = none) ∧
    (∀ avg_ms : Rat, interactions.avgExecutionTimeD = some avg_ms →
      generateRecommendations complexity interactions validations
          performance =
        .ok (matchingRecommendations complexity interactions validations
          performance avg_ms)) := by
  constructor
  · constructor
    · rintro ⟨e, he⟩
      unfold generateRecommendations avgTimeGuard at he
      cases havg : interactions.avgExecutionTimeD with
      | none => rfl
      | some v => rw [havg] at he; simp at he
    · intro havg
      unfold generateRecommendations avgTimeGuard
      rw [havg]
      exact ⟨_, rfl⟩
  · intro avg_ms havg
    unfold generateRecommendations avgTimeGuard
    rw [havg]
    unfold matchingRecommendations
    rw [filter_map_rules]
    unfold recommendationRules
    simp only [List.flatMap_cons, List.flatMap_nil, List.append_nil,
      decide_eq_true_eq]
    rw [if_elif_split]
    simp [List.append_assoc]

/-- Claim C4, witness: with a stored numeric average of 6000 ms the
generator succeeds and emits exactly the matching rules. -/
theorem recommendations_rule_list_witness :
    generateRecommendations (analyzeComplexity exampleCtx)
        (InteractionAnalysis.data 2 1 (1/2) (some 6000) (1/2)) .noData
        .noData =
      .ok (matchingRecommendations (analyzeComplexity exampleCtx)
        (InteractionAnalysis.data 2 1 (1/2) (some 6000) (1/2)) .noData
        .noData 6000) :=
  (recommendations_rule_list (analyzeComplexity exampleCtx)
    (InteractionAnalysis.data 2 1 (1/2) (some 6000) (1/2)) .noData
    .noData).2 6000 rfl

/-- Helper: the row loop keeps, for each recognised context type, the
payload of the LAST matching row of the iteration order (the rows arrive
newest first, so the last row is the oldest), and never populates
`metadata`. -/
theorem processContextRows_spec {α : Type} (rows : List (String × α)) :
    (processContextRows rows).requirements_context =
      lastValueOf "requirements" rows ∧
    (processContextRows rows).codebase_context =
      lastValueOf "codebase" rows ∧
    (processContextRows rows).workflow_state =
      lastValueOf "workflow" rows ∧
    (processContextRows rows).performance_metrics =
      lastValueOf "performance" rows ∧
    (processContextRows rows).metadata = none := by
  unfold processContextRows
  induction rows using List.reverseRecOn with
  | nil => simp [lastValueOf, emptyBundle]
  | append_singleton rs r ih =>
      obtain ⟨ih1, ih2, ih3, ih4, ih5⟩ := ih
      have hlast : ∀ t : String, lastValueOf t (rs ++ [r]) =
          if r.1 = t then some r.2 else lastValueOf t rs := by
        intro t
        unfold lastValueOf
        rw [List.filter_append, List.map_append]
        by_cases h : r.1 = t
        · simp [List.filter_cons, h, List.getLast?_concat]
        · simp [List.filter_cons, h]
      rw [List.foldl_append]
      simp only [List.foldl_cons, List.foldl_nil]
      rcases r with ⟨ty, val⟩
      have hmeta : (applyContextRow
          (List.foldl applyContextRow emptyBundle rs) (ty, val)).metadata
            = none := by
        simp only [applyContextRow]
        split_ifs <;> simp_all
      refine ⟨?_, ?_, ?_, ?_, hmeta⟩ <;>
        · rw [hlast]
          simp only [applyContextRow]
          split_ifs <;> simp_all

/-- Claim C5, counterexample: with two active `requirements` rows fetched
newest first, the exposed bundle keeps the OLDER payload — the loop over
the newest-first rows lets later (older) rows overwrite earlier (newer)
ones. -/
theorem context_bundle_counterexample :
    (processContextRows
      [("requirements", "new"), ("requirements", "old")]).requirements_context
        = some ("old") ∧
    ("old" : String) ≠ "new" :=
  ⟨rfl, by decide⟩

/-- Claim C5, amended: for each of the types requirements, codebase and
workflow, the bundle exposed in the `PromptContext` holds the payload of
the OLDEST fetched active row of that type (the last one in the
newest-first order) — so the most recent value survives only when it is
the sole active row of its type; `performance`-typed values are stored
into the `TaskContext` but not exposed in the `PromptContext`, and
`metadata`-typed values are never exposed at all. -/
theorem context_bundle_oldest_wins (task : AtomicTask)
    (context_rows : List (String × String)) (ai : List Interaction)
    (vals : List ValidationRec) (dependencies : List String)
    (lookup : String → Option AtomicTask)
    (performance_rows : List MetricRow) (include_history : Bool)
    (max_interactions max_validations : Nat) :
    (generatePromptContext task context_rows ai vals dependencies lookup
        performance_rows include_history max_interactions
        max_validations).requirements_context =
      lastValueOf "requirements" context_rows ∧
    (generatePromptContext task context_rows ai vals dependencies lookup
        performance_rows include_history max_interactions
        max_validations).codebase_context =
      lastValueOf "codebase" context_rows ∧
    (generatePromptContext task context_rows ai vals dependencies lookup
        performance_rows include_history max_interactions
        max_validations).workflow_state =
      lastValueOf "workflow" context_rows ∧
    (generatePromptContext task context_rows ai vals dependencies lookup
        performance_rows include_history max_interactions
        max_validations).metadata = none := by
  obtain ⟨h1, h2, h3, _, h5⟩ := processContextRows_spec context_rows
  exact ⟨h1, h2, h3, h5⟩

/-- Claim C7, counterexample: a successfully produced health report can
exceed 100.  One successful interaction with a stored execution time of
-100000 ms (the dataclass and schema accept negative values) drives the
time score to 1100 and the overall score to 163. -/
theorem health_score_bound_counterexample :
    (getContextHealthScore (Except.ok negTimeCtx)).health_status ≠
      "error" ∧
    (getContextHealthScore (Except.ok negTimeCtx)).overall_score > 100 := by
  have hcount :
      ([negTimeInteraction].countP fun i => ¬ (i.success.getD true)) = 0 :=
    by decide
  have hexec :
      ([negTimeInteraction].filter fun i => intTruthy i.execution_time_ms)
        = [negTimeInteraction] := by decide
  have hia : analyzeInteractions (some [negTimeInteraction]) =
      .data 1 0 0 (some (-100000)) 1 := by
    unfold analyzeInteractions
    rw [if_neg (by decide)]
    simp only [Option.getD_some, hcount, hexec,
      InteractionAnalysis.data.injEq]
    norm_num [negTimeInteraction, List.length_singleton, List.map_cons,
      List.map_nil, List.sum_cons, List.sum_nil]
  have hoc : (analyzeComplexity negTimeCtx).overall_complexity = "low" :=
    rfl
  have hdc : (analyzeComplexity negTimeCtx).dependency_count = 0 := rfl
  have hrecs : generateRecommendations (analyzeComplexity negTimeCtx)
      (.data 1 0 0 (some (-100000)) 1) (analyzeValidations none)
      (analyzePerformance .noMetrics) = .ok [recNoValidations] := by
    unfold generateRecommendations avgTimeGuard
    rw [show analyzeValidations none = .noData from rfl,
        show analyzePerformance .noMetrics = .noData from rfl]
    simp only [InteractionAnalysis.avgExecutionTimeD,
      InteractionAnalysis.errorRateD, InteractionAnalysis.hasInteractions,
      ValidationAnalysis.passRateD, ValidationAnalysis.recentTrend?,
      ValidationAnalysis.hasValidations,
      PerformanceAnalysis.executionTimeTrend?, hoc, hdc]
    norm_num
    simp
  have hana : analyzeContextPatterns negTimeCtx = .ok negTimeAnalytics := by
    unfold analyzeContextPatterns
    rw [show negTimeCtx.recent_interactions = some [negTimeInteraction]
          from rfl,
        show negTimeCtx.validation_history = none from rfl,
        show negTimeCtx.performance_context = .noMetrics from rfl,
        hia]
    simp only [hrecs]
    rfl
  have hr : getContextHealthScore (Except.ok negTimeCtx) =
      healthReportOf negTimeAnalytics := by
    simp [getContextHealthScore, analyzeFetched, hana]
  have hov : overallScore negTimeAnalytics = 163 := by
    unfold overallScore interactionHealth validationHealth
      performanceHealth complexityHealth
    simp only [negTimeAnalytics, InteractionAnalysis.hasInteractions,
      InteractionAnalysis.successRateD,
      InteractionAnalysis.avgExecutionTimeD,
      ValidationAnalysis.hasValidations,
      PerformanceAnalysis.hasPerformanceData, ratTruthy,
      Option.getD_some, hoc]
    norm_num
  constructor
  · rw [hr]
    unfold healthReportOf healthStatusOf
    simp only [hov]
    rw [if_pos (by norm_num)]
    decide
  · rw [hr]
    unfold healthReportOf
    simp only [hov]
    norm_num [roundTenths, bankersRound]

/-- Helper: the interaction component score lies in [0, 100] whenever the
success rate lies in [0, 1] and any stored average time is
nonnegative. -/
theorem interactionHealth_data_bounds (n ec : Nat) (er sr : Rat)
    (avg : Option Rat) (hsr0 : 0 ≤ sr) (hsr1 : sr ≤ 1)
    (havg : ∀ v, avg = some v → 0 ≤ v) :
    0 ≤ interactionHealth (.data n ec er avg sr) ∧
      interactionHealth (.data n ec er avg sr) ≤ 100 := by
  unfold interactionHealth
  simp only [InteractionAnalysis.hasInteractions,
    InteractionAnalysis.successRateD, InteractionAnalysis.avgExecutionTimeD,
    if_true]
  cases havgT : ratTruthy avg with
  | false =>
      rw [if_neg (by simp [havgT])]
      constructor
      · have h1 : 0 ≤ sr * 70 := mul_nonneg hsr0 (by norm_num)
        linarith
      · have h1 : sr * 70 ≤ 70 := by linarith
        linarith
  | true =>
      obtain ⟨v, hv⟩ : ∃ v, avg = some v := by
        cases avg with
        | none => simp [ratTruthy] at havgT
        | some v => exact ⟨v, rfl⟩
      have hv0 : 0 ≤ v := havg v hv
      rw [if_pos (by simp [havgT])]
      rw [hv]
      simp only [Option.getD_some]
      have hts0 : (0 : Rat) ≤ max 0 (100 - v / 100) := le_max_left _ _
      have hts1 : max 0 (100 - v / 100) ≤ 100 := by
        apply max_le (by norm_num)
        have hd : (0 : Rat) ≤ v / 100 := by positivity
        linarith
      constructor
      · have h1 : 0 ≤ sr * 70 := mul_nonneg hsr0 (by norm_num)
        have h2 : 0 ≤ max 0 (100 - v / 100) * (3 / 10) :=
          mul_nonneg hts0 (by norm_num)
        linarith
      · have h1 : sr * 70 ≤ 70 := by linarith
        have h2 : max 0 (100 - v / 100) * (3 / 10) ≤ 30 := by linarith
        linarith

/-- Helper: the interaction component score computed from an interaction
history whose recorded execution times are all nonnegative lies in
[0, 100]. -/
theorem interactionHealth_bounds (ris : Option (List Interaction))
    (h : ∀ i ∈ ris.getD [], ∀ t : Int,
      i.execution_time_ms = some t → 0 ≤ t) :
    0 ≤ interactionHealth (analyzeInteractions ris) ∧
      interactionHealth (analyzeInteractions ris) ≤ 100 := by
  unfold analyzeInteractions
  by_cases hT : listTruthy ris = true
  case neg =>
    rw [if_pos hT]
    unfold interactionHealth
    rw [if_neg (by simp [InteractionAnalysis.hasInteractions])]
    norm_num
  case pos =>
    rw [if_neg (not_not_intro hT)]
    have hlen : 0 < (ris.getD []).length := by
      cases ris with
      | none => simp [listTruthy] at hT
      | some l =>
          cases l with
          | nil => simp [listTruthy] at hT
          | cons a t => simp
    have hlenQ : (0 : Rat) < ((ris.getD []).length : Rat) := by
      exact_mod_cast hlen
    apply interactionHealth_data_bounds
    · have hle : ((ris.getD []).countP fun i => ¬ (i.success.getD true)) ≤
          (ris.getD []).length := List.countP_le_length _
      have hga : (((ris.getD []).countP fun i =>
          ¬ (i.success.getD true) : Nat) : Rat) /
            (((ris.getD []).length : Nat) : Rat) ≤ 1 := by
        rw [div_le_one hlenQ]
        exact_mod_cast hle
      linarith
    · have hga : (0 : Rat) ≤ (((ris.getD []).countP fun i =>
          ¬ (i.success.getD true) : Nat) : Rat) /
            (((ris.getD []).length : Nat) : Rat) := by positivity
      linarith
    · intro v hv
      split_ifs at hv with hel
      · simp only [Option.some.injEq] at hv
        subst hv
        have hs : 0 ≤ (((ris.getD []).filter fun i =>
            intTruthy i.execution_time_ms).map fun i =>
              i.execution_time_ms.getD 0).sum := by
          apply List.sum_nonneg
          intro x hx
          obtain ⟨i, hi, rfl⟩ := List.mem_map.mp hx
          have hmem : i ∈ ris.getD [] := List.mem_of_mem_filter hi
          have htrv := List.of_mem_filter hi
          cases hit : i.execution_time_ms with
          | none => simp [intTruthy, hit] at htrv
          | some t =>
              have hge := h i hmem t hit
              simpa [hit] using hge
        have hsq : (0 : Rat) ≤ ((((ris.getD []).filter fun i =>
            intTruthy i.execution_time_ms).map fun i =>
              i.execution_time_ms.getD 0).sum : Int) := by
          exact_mod_cast hs
        exact div_nonneg hsq (by positivity)

/-- Helper: the validation component score always lies in [0, 100] — the
populated branch is explicitly clamped, the no-data branch is 50. -/
theorem validationHealth_bounds (v : ValidationAnalysis) :
    0 ≤ validationHealth v ∧ validationHealth v ≤ 100 := by
  unfold validationHealth
  split_ifs
  · exact ⟨le_min (by norm_num) (le_max_left _ _), min_le_left _ _⟩
  · norm_num

/-- Helper: the performance component score always lies in [0, 100] — it
is one of 90, 70, 40 and 50. -/
theorem performanceHealth_bounds (p : PerformanceAnalysis) :
    0 ≤ performanceHealth p ∧ performanceHealth p ≤ 100 := by
  simp only [performanceHealth]
  split_ifs <;> norm_num

/-- Helper: the complexity component score always lies in [0, 100] — it
is one of 90, 70, 50 and 30. -/
theorem complexityHealth_bounds (c : ComplexityIndicators) :
    0 ≤ complexityHealth c ∧ complexityHealth c ≤ 100 := by
  simp only [complexityHealth]
  split_ifs <;> norm_num

/-- Helper: inverting a successful analysis run: the report's analysis
fields are the component analyses of the context. -/
theorem analyzeContextPatterns_ok (context : PromptCtx)
    (analytics : ContextAnalytics)
    (hok : analyzeContextPatterns context = .ok analytics) :
    analytics.interaction_patterns =
      analyzeInteractions context.recent_interactions ∧
    analytics.validation_trends =
      analyzeValidations context.validation_history ∧
    analytics.performance_metrics =
      analyzePerformance context.performance_context ∧
    analytics.complexity_indicators = analyzeComplexity context := by
  unfold analyzeContextPatterns at hok
  cases hgen : generateRecommendations (analyzeComplexity context)
      (analyzeInteractions context.recent_interactions)
      (analyzeValidations context.validation_history)
      (analyzePerformance context.performance_context) with
  | error e =>
      simp only [hgen] at hok
      exact absurd hok (by simp)
  | ok recs =>
      simp only [hgen, Except.ok.injEq] at hok
      subst hok
      exact ⟨rfl, rfl, rfl, rfl⟩

/-- Helper: rounding to tenths keeps a value of [0, 100] inside
[0, 100]. -/
theorem roundTenths_bounds (q : Rat) (h0 : 0 ≤ q) (h1 : q ≤ 100) :
    0 ≤ roundTenths q ∧ roundTenths q ≤ 100 := by
  simp only [roundTenths, bankersRound]
  have hx0 : (0 : Rat) ≤ q * 10 := by positivity
  have hx1 : q * 10 ≤ 1000 := by linarith
  have hf0 : 0 ≤ ⌊q * 10⌋ := Int.floor_nonneg.mpr hx0
  have hf1 : ⌊q * 10⌋ ≤ 1000 := by
    calc ⌊q * 10⌋ ≤ ⌊(1000 : Rat)⌋ := Int.floor_le_floor hx1
      _ = 1000 := by norm_num
  have hfr0 : (0 : Rat) ≤ (⌊q * 10⌋ : Rat) := by exact_mod_cast hf0
  have hfr1 : (⌊q * 10⌋ : Rat) ≤ 1000 := by exact_mod_cast hf1
  have hnext : (1 : Rat) / 2 ≤ q * 10 - (⌊q * 10⌋ : Rat) →
      ⌊q * 10⌋ + 1 ≤ 1000 := by
    intro hcond
    by_contra hgt
    push_neg at hgt
    have hq : ⌊q * 10⌋ = 1000 := by omega
    rw [hq] at hcond
    push_cast at hcond
    linarith
  split_ifs with hr1 hr2 heven
  · constructor
    · exact div_nonneg hfr0 (by norm_num)
    · rw [div_le_iff (by norm_num)]
      linarith
  · have hle := hnext (by linarith)
    have h0c : (0 : Rat) ≤ ((⌊q * 10⌋ + 1 : Int) : Rat) := by
      push_cast
      linarith
    have h1c : ((⌊q * 10⌋ + 1 : Int) : Rat) ≤ 1000 := by
      exact_mod_cast hle
    constructor
    · exact div_nonneg h0c (by norm_num)
    · rw [div_le_iff (by norm_num)]
      linarith
  · constructor
    · exact div_nonneg hfr0 (by norm_num)
    · rw [div_le_iff (by norm_num)]
      linarith
  · have hle := hnext (by linarith)
    have h0c : (0 : Rat) ≤ ((⌊q * 10⌋ + 1 : Int) : Rat) := by
      push_cast
      linarith
    have h1c : ((⌊q * 10⌋ + 1 : Int) : Rat) ≤ 1000 := by
      exact_mod_cast hle
    constructor
    · exact div_nonneg h0c (by norm_num)
    · rw [div_le_iff (by norm_num)]
      linarith

/-- Claim C7, amended: for every successfully produced health report
whose interaction history carries only nonnegative execution times, the
unrounded overall score lies in [0, 100] and so does the rounded reported
score; the status is determined by thresholds on the UNROUNDED score —
at least 80 is `excellent` (so exactly 80 is `excellent`), at least 60 is
`good` (so 79.9 is `good`), at least 40 is `fair`, below 40 is `poor`.
Without the nonnegativity condition the bound fails (a stored negative
execution time drives the score above 100). -/
theorem health_report_bounds (context : PromptCtx)
    (analytics : ContextAnalytics)
    (hok : analyzeContextPatterns context = .ok analytics)
    (htimes : ∀ i ∈ context.recent_interactions.getD [], ∀ t : Int,
      i.execution_time_ms = some t → 0 ≤ t) :
    (0 ≤ overallScore analytics ∧ overallScore analytics ≤ 100) ∧
    (0 ≤ (healthReportOf analytics).overall_score ∧
      (healthReportOf analytics).overall_score ≤ 100) ∧
    (healthReportOf analytics).health_status =
      healthStatusOf (overallScore analytics) ∧
    (80 ≤ overallScore analytics →
      (healthReportOf analytics).health_status = "excellent") ∧
    (60 ≤ overallScore analytics ∧ overallScore analytics < 80 →
      (healthReportOf analytics).health_status = "good") ∧
    (40 ≤ overallScore analytics ∧ overallScore analytics < 60 →
      (healthReportOf analytics).health_status = "fair") ∧
    (overallScore analytics < 40 →
      (healthReportOf analytics).health_status = "poor") := by
  obtain ⟨hip, hvt, hpm, hci⟩ :=
    analyzeContextPatterns_ok context analytics hok
  have hIH := interactionHealth_bounds context.recent_interactions htimes
  rw [← hip] at hIH
  have hVH := validationHealth_bounds analytics.validation_trends
  have hPH := performanceHealth_bounds analytics.performance_metrics
  have hCH := complexityHealth_bounds analytics.complexity_indicators
  have hov : 0 ≤ overallScore analytics ∧ overallScore analytics ≤ 100 := by
    unfold overallScore
    obtain ⟨hIH0, hIH1⟩ := hIH
    obtain ⟨hVH0, hVH1⟩ := hVH
    obtain ⟨hPH0, hPH1⟩ := hPH
    obtain ⟨hCH0, hCH1⟩ := hCH
    constructor <;> nlinarith
  have hstatus : (healthReportOf analytics).health_status =
      healthStatusOf (overallScore analytics) := rfl
  refine ⟨hov, roundTenths_bounds _ hov.1 hov.2, hstatus, ?_, ?_, ?_, ?_⟩
  · intro hx
    rw [hstatus]
    unfold healthStatusOf
    rw [if_pos (by linarith)]
  · rintro ⟨hx1, hx2⟩
    rw [hstatus]
    unfold healthStatusOf
    rw [if_neg (by linarith), if_pos (by linarith)]
  · rintro ⟨hx1, hx2⟩
    rw [hstatus]
    unfold healthStatusOf
    rw [if_neg (by linarith), if_neg (by linarith), if_pos (by linarith)]
  · intro hx
    rw [hstatus]
    unfold healthStatusOf
    rw [if_neg (by linarith), if_neg (by linarith), if_neg (by linarith)]

/-- Helper: the engine's analysis of the example context succeeds and
produces the example analytics report. -/
theorem analyzeContextPatterns_exampleCtx :
    analyzeContextPatterns exampleCtx = .ok exampleAnalytics := by
  unfold analyzeContextPatterns
  rw [show exampleCtx.recent_interactions = none from rfl,
      show exampleCtx.validation_history = none from rfl,
      show exampleCtx.performance_context = .noMetrics from rfl]
  have hrecs : generateRecommendations (analyzeComplexity exampleCtx)
      (analyzeInteractions none) (analyzeValidations none)
      (analyzePerformance .noMetrics) =
        .ok [recNoInteractions, recNoValidations] := by
    unfold generateRecommendations avgTimeGuard
    rw [show analyzeInteractions none = .noData from rfl,
        show analyzeValidations none = .noData from rfl,
        show analyzePerformance .noMetrics = .noData from rfl]
    simp only [InteractionAnalysis.avgExecutionTimeD,
      InteractionAnalysis.errorRateD, InteractionAnalysis.hasInteractions,
      ValidationAnalysis.passRateD, ValidationAnalysis.recentTrend?,
      ValidationAnalysis.hasValidations,
      PerformanceAnalysis.executionTimeTrend?,
      show (analyzeComplexity exampleCtx).overall_complexity = "low"
        from rfl,
      show (analyzeComplexity exampleCtx).dependency_count = 0 from rfl]
    norm_num
    simp
  simp only [hrecs]
  rfl

/-- Claim C7, witness: the bounds theorem applied to the example context
with no histories. -/
theorem health_report_bounds_witness :
    0 ≤ overallScore exampleAnalytics ∧
      overallScore exampleAnalytics ≤ 100 :=
  (health_report_bounds exampleCtx exampleAnalytics
    analyzeContextPatterns_exampleCtx (by simp [exampleCtx])).1

end TaskMaster
